import Mathlib

/-!
Verification development for the Telegram-to-Discord forwarder (`main.py`).

Python strings are modelled as `List Char` (`Str`), machine integers as
`Nat`/`Int`, fallible external calls as explicit outcome data passed to the
embedded functions.  Each definition is a direct translation of the source
function of the same (or clearly related) name; doc comments cite the source
lines.
-/

set_option autoImplicit false

/-- Python strings, modelled as lists of characters (slicing = `take`,
`str.join` = `intercalate`, `in` = `contains`). -/
abbrev Str := List Char

/-- Shorthand turning a Lean string literal into the `Str` model. -/
def S (s : String) : Str := s.toList

/-- The apostrophe character (used by `_to_target`, which strips `'` quotes). -/
def squote : Char := Char.ofNat 39

/-- Characters treated as whitespace by Python's `str.strip()` (ASCII subset:
space, tab, newline, carriage return, vertical tab, form feed). -/
def isPySpace (c : Char) : Bool :=
  c = ' ' || c = '\t' || c = '\n' || c = '\r' || c = Char.ofNat 11 || c = Char.ofNat 12

/-- Python `s.strip()`: remove leading and trailing whitespace. -/
def pyStrip (s : Str) : Str :=
  ((s.dropWhile isPySpace).reverse.dropWhile isPySpace).reverse

/-- Python `s.strip(c)` for a single character `c`: remove leading and
trailing occurrences of `c`. -/
def stripChar (c : Char) (s : Str) : Str :=
  ((s.dropWhile (· = c)).reverse.dropWhile (· = c)).reverse

/-- Numeric value of a decimal digit character. -/
def digitVal (c : Char) : Nat := c.toNat - 48

/-- Value of a string of decimal digits, most significant first. -/
def digitsToNat (ds : Str) : Nat := ds.foldl (fun a c => 10 * a + digitVal c) 0

/-- Models the external Python builtin `int(s)` on strings: strip whitespace,
optional sign, then decimal digits.  (Grouping underscores and non-decimal
bases of the builtin are not modelled; no claim depends on them.)  Returns
`none` where the builtin raises `ValueError`. -/
def pyInt? (s : Str) : Option Int :=
  let t := pyStrip s
  match t with
  | '+' :: ds => if !ds.isEmpty && ds.all Char.isDigit then some (digitsToNat ds) else none
  | '-' :: ds => if !ds.isEmpty && ds.all Char.isDigit then some (-(digitsToNat ds : Int)) else none
  | ds => if !ds.isEmpty && ds.all Char.isDigit then some (digitsToNat ds) else none

/-- Unsigned core of the Python builtin `float(s)`: plain decimal notation
`digits`, `digits.digits`, `.digits` or `digits.`, valued in `ℚ`
(built with `mkRat` so that concrete instances evaluate in the kernel). -/
def pyFloatCore (t : Str) : Option ℚ :=
  match t.splitOn '.' with
  | [ip] => if !ip.isEmpty && ip.all Char.isDigit then some (mkRat (digitsToNat ip) 1) else none
  | [ip, fp] =>
      if (!ip.isEmpty || !fp.isEmpty) && ip.all Char.isDigit && fp.all Char.isDigit then
        some (mkRat (digitsToNat ip * 10 ^ fp.length + digitsToNat fp) (10 ^ fp.length))
      else none
  | _ => none

/-- Models the external Python builtin `float(s)` on the plain-decimal subset
(strip whitespace, optional sign, decimal digits with at most one point).
Exponent, `inf`/`nan` and underscore forms of the builtin are not modelled;
no claim depends on them.  Returns `none` where the builtin raises
`ValueError`. -/
def pyFloat? (s : Str) : Option ℚ :=
  match pyStrip s with
  | '+' :: r => pyFloatCore r
  | '-' :: r => (pyFloatCore r).map (fun q => -q)
  | t => pyFloatCore t

/-- Python `s.startswith(p)`. -/
def strStartsWith : Str → Str → Bool
  | [], _ => true
  | _ :: _, [] => false
  | p :: ps, c :: cs => p = c && strStartsWith ps cs

/-! ## Target resolver (`_to_target`, `parse_targets`, `main.py` lines 67-94) -/

/-- A parsed channel target: `@username` (or other non-numeric) strings stay
strings, numeric ids become integers (`_to_target`, lines 67-77). -/
inductive Target where
  | str (s : Str)
  | num (n : Int)
  deriving DecidableEq, Repr

/-- `_to_target` (lines 67-77): strip whitespace, then `"` quotes, then `'`
quotes; drop the entry if empty; keep `@...` as a string; otherwise try
`int(s)` and fall back to the string itself. -/
def to_target (s0 : Str) : Option Target :=
  let s := stripChar squote (stripChar '"' (pyStrip s0))
  if s.isEmpty then none
  else if strStartsWith (S "@") s then some (.str s)
  else
    match pyInt? s with
    | some n => some (.num n)
    | none => some (.str s)

/-- `parse_targets` (lines 79-90): when the multi list is truthy (non-empty),
split it on commas and keep the parses of the non-dropped entries, in order;
otherwise use the single entry when truthy; otherwise no targets. -/
def parse_targets (single multi : Str) : List Target :=
  if !multi.isEmpty then (multi.splitOn ',').filterMap to_target
  else if !single.isEmpty then
    match to_target single with
    | some t => [t]
    | none => []
  else []

/-- The `SystemExit` message of lines 93-94 (raising `SystemExit` with a
string message exits the process with the non-zero code 1). -/
def noChannelsMsg : Str :=
  S "No channels provided. Set TG_CHANNELS=" ++ [squote] ++ S "@chan1,-100123..." ++ [squote]
    ++ S " or TG_CHANNEL=" ++ [squote] ++ S "@one" ++ [squote] ++ S "."

/-- Lines 92-94: the module computes `TARGETS` and raises `SystemExit`
(non-zero exit) when it is empty.  `Except.error` models the non-zero exit. -/
def targetsOrExit (ts : List Target) : Except Str (List Target) :=
  if ts.isEmpty then .error noChannelsMsg else .ok ts

/-- Lines 37-38 and 92: the environment values `TG_CHANNEL` / `TG_CHANNELS`
are stripped at module level before `parse_targets` runs on them. -/
def resolveTargets (singleEnv multiEnv : Str) : List Target :=
  parse_targets (pyStrip singleEnv) (pyStrip multiEnv)

/-! ## Delivery client (`post_text_to_discord`, `post_file_to_discord`,
`main.py` lines 96-134).

Each loop iteration of `for attempt in range(5)` issues exactly one HTTP
request; the observed outcome of the `attempt`-th request is supplied as
`trace attempt`. -/

/-- Outcome of one `requests.post` call: an HTTP response (status code plus
optional `Retry-After` header value), or a raised `requests.RequestException`. -/
inductive Attempt where
  | resp (status : Nat) (retryAfter : Option Str)
  | reqExn (e : Str)
  deriving DecidableEq, Repr

/-- `requests.Response.ok`: true when `raise_for_status()` would not raise,
i.e. the status code is below 400. -/
def respOk (status : Nat) : Bool := status < 400

/-- The branch taken by the loop body (lines 100-112) for one response:
success (`r.status_code == 204 or r.ok`), a 429 whose `Retry-After` parses
(`float(r.headers.get("Retry-After", "1"))`), a 429 whose header value makes
`float` raise `ValueError` (uncaught: the `except` clause only catches
`requests.RequestException`), a non-success non-429 status, or a
`requests.RequestException`. -/
inductive AttemptClass where
  | success
  | retry429 (wait : ℚ)
  | badRetryAfter
  | failStatus (status : Nat)
  | failExn (e : Str)
  deriving DecidableEq, Repr

/-- Classify one request outcome per the loop body (lines 100-112). -/
def classify : Attempt → AttemptClass
  | .resp st ra =>
      if st == 204 || respOk st then .success
      else if st == 429 then
        match pyFloat? (ra.getD (S "1")) with
        | none => .badRetryAfter
        | some w => .retry429 w
      else .failStatus st
  | .reqExn e => .failExn e

/-- One log line emitted inside the retry loop:
`logger.warning("Discord 429 rate limit: retrying after ...")` (line 106),
`logger.error("Discord text post failed (status ...)")` (line 109), or
`logger.warning("Discord post exception: ...")` (line 111). -/
inductive LogEntry where
  | rateLimit (wait : ℚ)
  | statusFailure (status : Nat)
  | exnWarning (e : Str)
  deriving DecidableEq, Repr

/-- `true` for the failure logs (`logger.error` on a bad status,
`logger.warning` on a transport exception); `false` for the 429
"retrying after" notice. -/
def LogEntry.isFailure : LogEntry → Bool
  | .rateLimit _ => false
  | .statusFailure _ => true
  | .exnWarning _ => true

/-- How a call to the posting function ends: an early `return` on success, the
`for` loop exhausting its 5 iterations (the function then returns `None`
normally), or the uncaught `ValueError` from `float` propagating past the
call boundary. -/
inductive PostOutcome where
  | success
  | exhausted
  | valueError
  deriving DecidableEq, Repr

/-- Observable behaviour of one call to the retry loop: how it ended, how many
HTTP requests it issued, the log lines and the `time.sleep` durations
(seconds), each in order. -/
structure PostRun where
  outcome : PostOutcome
  requests : Nat
  logs : List LogEntry
  sleeps : List ℚ
  deriving DecidableEq, Repr

/-- The backoff sleep `time.sleep(1 + attempt)` (lines 112/134), in seconds. -/
def backoff (attempt : Nat) : ℚ := ((1 + attempt : Nat) : ℚ)

/-- The retry loop shared verbatim by `post_text_to_discord` (lines 99-112)
and `post_file_to_discord` (lines 119-134): `i` is the current value of
`attempt`, `fuel` the remaining iterations of `range(5)`, `logs`/`sleeps`
accumulate in reverse.  A 429 with a parseable `Retry-After` sleeps that
duration and `continue`s (skipping the backoff sleep but consuming the loop
iteration); other failures log, sleep `1 + attempt`, and fall through. -/
def discordAttempts (trace : Nat → Attempt) : Nat → Nat → List LogEntry → List ℚ → PostRun
  | i, 0, logs, sleeps => ⟨.exhausted, i, logs.reverse, sleeps.reverse⟩
  | i, fuel + 1, logs, sleeps =>
      match classify (trace i) with
      | .success => ⟨.success, i + 1, logs.reverse, sleeps.reverse⟩
      | .badRetryAfter => ⟨.valueError, i + 1, logs.reverse, sleeps.reverse⟩
      | .retry429 w => discordAttempts trace (i + 1) fuel (.rateLimit w :: logs) (w :: sleeps)
      | .failStatus st =>
          discordAttempts trace (i + 1) fuel (.statusFailure st :: logs) (backoff i :: sleeps)
      | .failExn e =>
          discordAttempts trace (i + 1) fuel (.exnWarning e :: logs) (backoff i :: sleeps)

/-- A full run of the `for attempt in range(5)` retry loop. -/
def runDiscordPost (trace : Nat → Attempt) : PostRun :=
  discordAttempts trace 0 5 [] []

/-- `payload = {"content": text[:2000] or "."}` (line 98): truncate to 2000
characters; an empty result is replaced by the placeholder `"."`. -/
def truncateContent (s : Str) : Str :=
  let t := s.take 2000
  if t.isEmpty then S "." else t

/-- `post_text_to_discord` (lines 96-112): the transmitted `content` field and
the behaviour of the retry loop. -/
def post_text_to_discord (text : Str) (trace : Nat → Attempt) : Str × PostRun :=
  (truncateContent text, runDiscordPost trace)

/-- `post_file_to_discord` (lines 114-134): the optional `content` form field
(`data["content"] = content[:2000]` only when `content` is truthy) and the
behaviour of the same retry loop. -/
def post_file_to_discord (content : Option Str) (trace : Nat → Attempt) :
    Option Str × PostRun :=
  (match content with
   | some c => if c.isEmpty then none else some (c.take 2000)
   | none => none,
   runDiscordPost trace)

/-! ## Message formatter and event handler (`main.py` lines 136-287) -/

/-- `build_link` (lines 136-141): a public `t.me` deep link when both a
username and a (truthy, i.e. non-zero) message id are present, wrapped in
`<...>` when `DISABLE_PREVIEW` is set; otherwise the empty string. -/
def build_link (disablePreview : Bool) (username : Option Str) (messageId : Nat) : Str :=
  match username with
  | some u =>
      if !u.isEmpty && messageId != 0 then
        let raw := S "https://t.me/" ++ u ++ S "/" ++ Nat.toDigits 10 messageId
        if disablePreview then S "<" ++ raw ++ S ">" else raw
      else []
  | none => []

/-- `build_message` (lines 143-158): `PREFIX[title]`, then a blank line and
the text when the text is non-empty, then a blank line and the link when the
link is non-empty, joined with newlines. -/
def build_message (pfx title text link : Str) : Str :=
  List.intercalate [ '\n' ]
    ([pfx ++ S "[" ++ title ++ S "]"]
      ++ (if text.isEmpty then [] else [[], text])
      ++ (if link.isEmpty then [] else [[], link]))

/-- The media of an inbound message: none, a native photo
(`MessageMediaPhoto`), or a document (`MessageMediaDocument`) carrying its
declared MIME type (`msg.document.mime_type or ""` modelled as the possibly
empty string). -/
inductive MediaDesc where
  | phNone
  | photo
  | document (mime : Str)
  deriving DecidableEq, Repr

/-- `is_image_document` (lines 160-169): a document whose MIME type starts
with `image/`. -/
def is_image_document : MediaDesc → Bool
  | .document mime => strStartsWith (S "image/") mime
  | _ => false

/-- The `"." + mime.split("/")[-1].lower()` candidate extension of
lines 259-260 (the length check of line 261 counts the dot). -/
def dotLowerLast (mime : Str) : Str :=
  '.' :: ((mime.splitOn '/').getLastD []).map Char.toLower

/-- Whether lines 259-262 accept the candidate extension: the MIME type
contains a `/` and the candidate (dot included) is 1 to 6 characters long. -/
def extDerivable (mime : Str) : Bool :=
  mime.contains '/' && decide (1 ≤ (dotLowerLast mime).length ∧ (dotLowerLast mime).length ≤ 6)

/-- Lines 256-262: the temp-file suffix for an image document: the sanitized
candidate from the MIME type when acceptable, else the generic `.img`. -/
def docExt (mime : Str) : Str :=
  if mime.contains '/' then
    if 1 ≤ (dotLowerLast mime).length ∧ (dotLowerLast mime).length ≤ 6 then dotLowerLast mime
    else S ".img"
  else S ".img"

/-- The filename extension used for a delivered attachment: `.jpg` for photos
(line 236), `docExt` of the MIME type for image documents (lines 256-263). -/
def extForMedia : MediaDesc → Str
  | .photo => S ".jpg"
  | .document mime => docExt mime
  | .phNone => []

/-- Whether lines 235/255 route the event into an attachment branch:
a native photo, or a document whose MIME type starts with `image/`. -/
def isImageKind : MediaDesc → Bool
  | .photo => true
  | m => is_image_document m

/-- One inbound Telegram message event as observed by `on_new_message`:
the raw text (`msg.message or ""`, before stripping), the media descriptor,
the message id, and the chat title/username attributes (absent attributes as
`none`). -/
structure Inbound where
  rawText0 : Str
  media : MediaDesc
  msgId : Nat
  chatTitle : Option Str
  chatUsername : Option Str
  deriving DecidableEq, Repr

/-- The relevant configuration surface: `DISCORD_PREFIX`, `DISABLE_PREVIEW`,
`MAX_UPLOAD_BYTES` (lines 27-29). -/
structure Config where
  pfx : Str
  disablePreview : Bool
  maxUploadBytes : Nat
  deriving DecidableEq, Repr

/-- Python `a or b` on an optional string: `b` when `a` is `None` or empty. -/
def orDefault (a : Option Str) (b : Str) : Str :=
  match a with
  | some x => if x.isEmpty then b else x
  | none => b

/-- Line 226: `getattr(chat, "title", None) or getattr(chat, "username", None)
or "Telegram"`. -/
def titleOf (ev : Inbound) : Str :=
  orDefault ev.chatTitle (orDefault ev.chatUsername (S "Telegram"))

/-- Lines 231-232: the caption composed for the event. -/
def composedMessage (cfg : Config) (ev : Inbound) : Str :=
  build_message cfg.pfx (titleOf ev) (pyStrip ev.rawText0)
    (build_link cfg.disablePreview ev.chatUsername ev.msgId)

/-- The notice appended on the oversize path (lines 247/274). -/
def tooLargeNotice : Str := S "\n(Attachment too large to upload)"

/-- The delivery decision taken for one event: a file upload (with the
temp-file extension and the caption), a text post, or no delivery. -/
inductive Delivery where
  | file (filenameExt : Str) (content : Str)
  | text (content : Str)
  | ignored
  deriving DecidableEq, Repr

/-- `on_new_message` (lines 219-287), delivery decision only: photos and image
documents are fetched (the fetched byte count is `fetchedSize`) and uploaded
when within `MAX_UPLOAD_BYTES`, else posted text-only with the oversize
notice; otherwise non-empty text is posted; otherwise the event is ignored. -/
def on_new_message (cfg : Config) (ev : Inbound) (fetchedSize : Nat) : Delivery :=
  let raw_text := pyStrip ev.rawText0
  let message := composedMessage cfg ev
  match ev.media with
  | .photo =>
      if fetchedSize ≤ cfg.maxUploadBytes then .file (S ".jpg") message
      else .text (message ++ tooLargeNotice)
  | .document mime =>
      if is_image_document (.document mime) then
        if fetchedSize ≤ cfg.maxUploadBytes then .file (docExt mime) message
        else .text (message ++ tooLargeNotice)
      else if !raw_text.isEmpty then .text message
      else .ignored
  | .phNone => if !raw_text.isEmpty then .text message else .ignored

/-! ## Startup lifecycle (`main`, `main.py` lines 290-361) -/

/-- How the startup branch of `main()` ends: the coroutine never returns
(`hung`), `main` returns early after a startup error (`failedReturn`), or it
proceeds towards the announcement and `run_until_disconnected` (`proceeded`). -/
inductive PhaseOutcome where
  | hung
  | failedReturn
  | proceeded
  deriving DecidableEq, Repr

/-- Observable behaviour of a startup branch: its outcome, the
`logger.error` lines, the diagnostic `post_text_to_discord` calls (one entry
per call, holding the posted text), and whether the branch may prompt the
operator interactively. -/
structure PhaseResult where
  outcome : PhaseOutcome
  errorLogs : List Str
  diagPosts : List Str
  promptsUser : Bool
  deriving DecidableEq, Repr

/-- The message of line 300. -/
def attendedErrMsg (e : Str) : Str :=
  S "Startup error: interactive start() failed: " ++ e

/-- The attended (interactive TTY) branch of `main()` (lines 294-303):
`await client.start()` with no `asyncio.wait_for` wrapper, so the branch is a
function of the call result only — `durationSeconds`, how long the combined
connect-and-authenticate call takes, is never consulted, and a call that
never completes (`none`) leaves `main` suspended forever.  `client.start()`
may prompt for credentials, so `promptsUser` is `true` on this branch. -/
def mainAttended (durationSeconds : ℚ) (result : Option (Except Str Unit)) : PhaseResult :=
  match result with
  | none => ⟨.hung, [], [], true⟩
  | some (.ok _) => ⟨.proceeded, [], [], true⟩
  | some (.error e) => ⟨.failedReturn, [attendedErrMsg e], [attendedErrMsg e], true⟩

/-- Result of `asyncio.wait_for(client.connect(), timeout=15)` (line 308):
the connect call completed within the timeout, raised, or was cut off by
`asyncio.TimeoutError`. -/
inductive ConnectResult where
  | completed
  | raised (e : Str)
  | timedOut
  deriving DecidableEq, Repr

/-- The message of line 310. -/
def connectTimeoutMsg : Str :=
  S "Startup error: connect() timed out (network blocked/blackholed?)."

/-- The message of line 315 for a connect exception `e`. -/
def connectFailMsg (e : Str) : Str :=
  S "Startup error: failed to connect to Telegram: " ++ e

/-- The message of line 323. -/
def notConnectedMsg : Str :=
  S "Startup error: client not connected after connect()."

/-- The message of line 328 for a state-check exception `e`. -/
def stateCheckFailMsg (e : Str) : Str :=
  S "Startup error: connection state check failed: " ++ e

/-- The message of line 337 for an authorization-check exception `e`. -/
def authCheckFailMsg (e : Str) : Str :=
  S "Startup error: authorization check failed: " ++ e

/-- The message of lines 342-343. -/
def notAuthorizedMsg : Str :=
  S "Startup error: session not authorized and no TTY available. "
    ++ S "Run `python main.py` once in an interactive shell to log in."

/-- A startup error in the headless branch: log it, post it once to Discord,
and return from `main` (the repeated four-line pattern of lines 309-346). -/
def headlessFail (msg : Str) : PhaseResult := ⟨.failedReturn, [msg], [msg], false⟩

/-- The headless branch of `main()` (lines 304-346): connect under a 15s
timeout, re-check `client.is_connected()`, then check
`client.is_user_authorized()`; every failure logs one error, posts one
diagnostic text, and returns.  No branch prompts interactively. -/
def mainHeadless (conn : ConnectResult) (isConnected : Except Str Bool)
    (isAuthorized : Except Str Bool) : PhaseResult :=
  match conn with
  | .timedOut => headlessFail connectTimeoutMsg
  | .raised e => headlessFail (connectFailMsg e)
  | .completed =>
      match isConnected with
      | .error e => headlessFail (stateCheckFailMsg e)
      | .ok false => headlessFail notConnectedMsg
      | .ok true =>
          match isAuthorized with
          | .error e => headlessFail (authCheckFailMsg e)
          | .ok false => headlessFail notAuthorizedMsg
          | .ok true => ⟨.proceeded, [], [], false⟩

/-! ## Auxiliary definitions for stating the retry-loop properties -/

/-- The loop-iteration indices `[i, i+1, ..., i+fuel-1]`. -/
def idxList : Nat → Nat → List Nat
  | _, 0 => []
  | i, fuel + 1 => i :: idxList (i + 1) fuel

/-- The log line emitted by one loop iteration, by branch (none on the two
terminating branches). -/
def attemptLog? : AttemptClass → Option LogEntry
  | .retry429 w => some (.rateLimit w)
  | .failStatus st => some (.statusFailure st)
  | .failExn e => some (.exnWarning e)
  | _ => none

/-- The sleep performed by iteration `i`, by branch: the parsed `Retry-After`
on a 429, the linear backoff `1 + i` on other failures, none on the two
terminating branches. -/
def attemptSleep? (i : Nat) : AttemptClass → Option ℚ
  | .retry429 w => some w
  | .failStatus _ => some (backoff i)
  | .failExn _ => some (backoff i)
  | _ => none

/-- Branches on which the loop continues to the next iteration. -/
def nonTerminal : AttemptClass → Bool
  | .success => false
  | .badRetryAfter => false
  | _ => true

/-- A response trace answering 429 with `Retry-After: 1` to every request. -/
def all429Trace : Nat → Attempt := fun _ => .resp 429 (some (S "1"))

/-- A response trace answering 429 with the unparseable `Retry-After: abc` to
the first request and 200 to any later one. -/
def badHeaderTrace : Nat → Attempt :=
  fun n => if n = 0 then .resp 429 (some (S "abc")) else .resp 200 none

/-- A response trace answering 500 to every request. -/
def all500Trace : Nat → Attempt := fun _ => .resp 500 none

/-- A response trace raising `requests.RequestException` on every request. -/
def allExnTrace : Nat → Attempt := fun _ => .reqExn (S "boom")

/-! ## Lemmas about the retry loop -/

theorem da_step (trace : Nat → Attempt) (i fuel : Nat) (logs : List LogEntry) (sleeps : List ℚ) :
    discordAttempts trace i (fuel + 1) logs sleeps =
      match classify (trace i) with
      | .success => ⟨.success, i + 1, logs.reverse, sleeps.reverse⟩
      | .badRetryAfter => ⟨.valueError, i + 1, logs.reverse, sleeps.reverse⟩
      | .retry429 w => discordAttempts trace (i + 1) fuel (.rateLimit w :: logs) (w :: sleeps)
      | .failStatus st =>
          discordAttempts trace (i + 1) fuel (.statusFailure st :: logs) (backoff i :: sleeps)
      | .failExn e =>
          discordAttempts trace (i + 1) fuel (.exnWarning e :: logs) (backoff i :: sleeps) := rfl

theorem da_step_success (trace : Nat → Attempt) (i fuel : Nat) (logs : List LogEntry)
    (sleeps : List ℚ) (hc : classify (trace i) = .success) :
    discordAttempts trace i (fuel + 1) logs sleeps =
      ⟨.success, i + 1, logs.reverse, sleeps.reverse⟩ := by
  rw [da_step, hc]

theorem da_step_bad (trace : Nat → Attempt) (i fuel : Nat) (logs : List LogEntry)
    (sleeps : List ℚ) (hc : classify (trace i) = .badRetryAfter) :
    discordAttempts trace i (fuel + 1) logs sleeps =
      ⟨.valueError, i + 1, logs.reverse, sleeps.reverse⟩ := by
  rw [da_step, hc]

theorem da_step_retry (trace : Nat → Attempt) (i fuel : Nat) (logs : List LogEntry)
    (sleeps : List ℚ) (w : ℚ) (hc : classify (trace i) = .retry429 w) :
    discordAttempts trace i (fuel + 1) logs sleeps =
      discordAttempts trace (i + 1) fuel (.rateLimit w :: logs) (w :: sleeps) := by
  rw [da_step, hc]

theorem da_step_failStatus (trace : Nat → Attempt) (i fuel : Nat) (logs : List LogEntry)
    (sleeps : List ℚ) (st : Nat) (hc : classify (trace i) = .failStatus st) :
    discordAttempts trace i (fuel + 1) logs sleeps =
      discordAttempts trace (i + 1) fuel (.statusFailure st :: logs) (backoff i :: sleeps) := by
  rw [da_step, hc]

theorem da_step_failExn (trace : Nat → Attempt) (i fuel : Nat) (logs : List LogEntry)
    (sleeps : List ℚ) (e : Str) (hc : classify (trace i) = .failExn e) :
    discordAttempts trace i (fuel + 1) logs sleeps =
      discordAttempts trace (i + 1) fuel (.exnWarning e :: logs) (backoff i :: sleeps) := by
  rw [da_step, hc]

theorem da_requests_le (trace : Nat → Attempt) :
    ∀ fuel i logs sleeps, (discordAttempts trace i fuel logs sleeps).requests ≤ i + fuel := by
  intro fuel
  induction fuel with
  | zero => intro i logs sleeps; simp [discordAttempts]
  | succ n ih =>
      intro i logs sleeps
      cases hc : classify (trace i) with
      | success => rw [da_step_success trace i n logs sleeps hc]; simp
      | badRetryAfter => rw [da_step_bad trace i n logs sleeps hc]; simp
      | retry429 w =>
          rw [da_step_retry trace i n logs sleeps w hc]
          have := ih (i + 1) (.rateLimit w :: logs) (w :: sleeps); omega
      | failStatus st =>
          rw [da_step_failStatus trace i n logs sleeps st hc]
          have := ih (i + 1) (.statusFailure st :: logs) (backoff i :: sleeps); omega
      | failExn e =>
          rw [da_step_failExn trace i n logs sleeps e hc]
          have := ih (i + 1) (.exnWarning e :: logs) (backoff i :: sleeps); omega

theorem da_requests_lower (trace : Nat → Attempt) :
    ∀ fuel i logs sleeps,
      i ≤ (discordAttempts trace i fuel logs sleeps).requests ∧
      (1 ≤ fuel → i + 1 ≤ (discordAttempts trace i fuel logs sleeps).requests) := by
  intro fuel
  induction fuel with
  | zero => intro i logs sleeps; simp [discordAttempts]
  | succ n ih =>
      intro i logs sleeps
      cases hc : classify (trace i) with
      | success => rw [da_step_success trace i n logs sleeps hc]; simp
      | badRetryAfter => rw [da_step_bad trace i n logs sleeps hc]; simp
      | retry429 w =>
          rw [da_step_retry trace i n logs sleeps w hc]
          have := (ih (i + 1) (.rateLimit w :: logs) (w :: sleeps)).1
          constructor <;> omega
      | failStatus st =>
          rw [da_step_failStatus trace i n logs sleeps st hc]
          have := (ih (i + 1) (.statusFailure st :: logs) (backoff i :: sleeps)).1
          constructor <;> omega
      | failExn e =>
          rw [da_step_failExn trace i n logs sleeps e hc]
          have := (ih (i + 1) (.exnWarning e :: logs) (backoff i :: sleeps)).1
          constructor <;> omega

theorem da_sleeps_acc (trace : Nat → Attempt) :
    ∀ fuel i logs sleeps,
      ∃ t, (discordAttempts trace i fuel logs sleeps).sleeps = sleeps.reverse ++ t := by
  intro fuel
  induction fuel with
  | zero => intro i logs sleeps; exact ⟨[], by simp [discordAttempts]⟩
  | succ n ih =>
      intro i logs sleeps
      cases hc : classify (trace i) with
      | success => exact ⟨[], by rw [da_step_success trace i n logs sleeps hc]; simp⟩
      | badRetryAfter => exact ⟨[], by rw [da_step_bad trace i n logs sleeps hc]; simp⟩
      | retry429 w =>
          obtain ⟨t, ht⟩ := ih (i + 1) (.rateLimit w :: logs) (w :: sleeps)
          refine ⟨w :: t, ?_⟩
          rw [da_step_retry trace i n logs sleeps w hc, ht]
          simp
      | failStatus st =>
          obtain ⟨t, ht⟩ := ih (i + 1) (.statusFailure st :: logs) (backoff i :: sleeps)
          refine ⟨backoff i :: t, ?_⟩
          rw [da_step_failStatus trace i n logs sleeps st hc, ht]
          simp
      | failExn e =>
          obtain ⟨t, ht⟩ := ih (i + 1) (.exnWarning e :: logs) (backoff i :: sleeps)
          refine ⟨backoff i :: t, ?_⟩
          rw [da_step_failExn trace i n logs sleeps e hc, ht]
          simp

theorem da_exhaust (trace : Nat → Attempt) :
    ∀ fuel i logs sleeps,
      (∀ j, j < fuel → nonTerminal (classify (trace (i + j))) = true) →
      discordAttempts trace i fuel logs sleeps =
        ⟨.exhausted, i + fuel,
         logs.reverse ++ (idxList i fuel).filterMap (fun j => attemptLog? (classify (trace j))),
         sleeps.reverse
           ++ (idxList i fuel).filterMap (fun j => attemptSleep? j (classify (trace j)))⟩ := by
  intro fuel
  induction fuel with
  | zero => intro i logs sleeps _; simp [discordAttempts, idxList]
  | succ n ih =>
      intro i logs sleeps h
      have h0 : nonTerminal (classify (trace i)) = true := by
        have := h 0 (Nat.succ_pos n); rwa [Nat.add_zero] at this
      have h' : ∀ j, j < n → nonTerminal (classify (trace (i + 1 + j))) = true := by
        intro j hj
        have := h (j + 1) (by omega)
        rwa [show i + (j + 1) = i + 1 + j by omega] at this
      cases hc : classify (trace i) with
      | success => rw [hc] at h0; simp [nonTerminal] at h0
      | badRetryAfter => rw [hc] at h0; simp [nonTerminal] at h0
      | retry429 w =>
          rw [da_step_retry trace i n logs sleeps w hc,
            ih (i + 1) (.rateLimit w :: logs) (w :: sleeps) h']
          simp [idxList, List.filterMap_cons, hc, attemptLog?, attemptSleep?,
            List.reverse_cons, List.append_assoc, List.singleton_append, PostRun.mk.injEq]
          all_goals omega
      | failStatus st =>
          rw [da_step_failStatus trace i n logs sleeps st hc,
            ih (i + 1) (.statusFailure st :: logs) (backoff i :: sleeps) h']
          simp [idxList, List.filterMap_cons, hc, attemptLog?, attemptSleep?,
            List.reverse_cons, List.append_assoc, List.singleton_append, PostRun.mk.injEq]
          all_goals omega
      | failExn e =>
          rw [da_step_failExn trace i n logs sleeps e hc,
            ih (i + 1) (.exnWarning e :: logs) (backoff i :: sleeps) h']
          simp [idxList, List.filterMap_cons, hc, attemptLog?, attemptSleep?,
            List.reverse_cons, List.append_assoc, List.singleton_append, PostRun.mk.injEq]
          all_goals omega

/-! ## Shared helper theorems -/

theorem runDiscordPost_unfold (trace : Nat → Attempt) :
    runDiscordPost trace = discordAttempts trace 0 (4 + 1) [] [] := rfl

theorem truncateContent_length (s : Str) :
    (truncateContent s).length ≤ 2000 ∧ truncateContent s ≠ [] := by
  unfold truncateContent
  by_cases h : (s.take 2000).isEmpty = true
  · simp [h, S]
  · rw [Bool.not_eq_true] at h
    simp only [h, Bool.false_eq_true, if_false]
    refine ⟨?_, List.isEmpty_eq_false.mp h⟩
    simp [List.length_take]

theorem docExt_length (mime : Str) :
    1 ≤ (docExt mime).length ∧ (docExt mime).length ≤ 6 := by
  unfold docExt
  by_cases hc : mime.contains '/' = true
  · rw [if_pos hc]
    by_cases hl : 1 ≤ (dotLowerLast mime).length ∧ (dotLowerLast mime).length ≤ 6
    · rw [if_pos hl]; exact hl
    · rw [if_neg hl]; exact ⟨by decide, by decide⟩
  · rw [if_neg hc]; exact ⟨by decide, by decide⟩

theorem extDerivable_spec (mime : Str) :
    (extDerivable mime = true → docExt mime = dotLowerLast mime) ∧
    (extDerivable mime = false → docExt mime = S ".img") := by
  constructor
  · intro hder
    have hc : mime.contains '/' = true := by
      by_contra hcc
      rw [Bool.not_eq_true] at hcc
      unfold extDerivable at hder
      rw [hcc] at hder
      simp at hder
    have hl : 1 ≤ (dotLowerLast mime).length ∧ (dotLowerLast mime).length ≤ 6 := by
      unfold extDerivable at hder
      rw [hc] at hder
      simpa using hder
    unfold docExt
    rw [if_pos hc, if_pos hl]
  · intro hder
    unfold docExt
    by_cases hc : mime.contains '/' = true
    · rw [if_pos hc]
      by_cases hl : 1 ≤ (dotLowerLast mime).length ∧ (dotLowerLast mime).length ≤ 6
      · exfalso
        unfold extDerivable at hder
        rw [hc] at hder
        simp [hl] at hder
      · rw [if_neg hl]
    · rw [if_neg hc]

/-! ## Claim C1 -/

/-- C1, counterexample: a call whose 5 attempts all receive 429 with
`Retry-After: 1` ends without success and returns normally, but emits no
failure log at all (only the "retrying after" rate-limit warnings), so the
claimed terminal-failure log does not exist on this input. -/
theorem c1_counterexample :
    (runDiscordPost all429Trace).outcome = .exhausted ∧
    (runDiscordPost all429Trace).requests = 5 ∧
    (runDiscordPost all429Trace).logs.all (fun l => !l.isFailure) = true := by decide

/-- C1 (amended): whenever all 5 loop iterations take non-terminating
branches (no success, no `ValueError` from `Retry-After` parsing), the call
returns normally with outcome `exhausted` after exactly 5 requests, and its
logs are exactly the per-attempt entries — a failure log for each non-429
failed attempt (the last such entry being the terminal one for the call),
and only rate-limit warnings for 429 attempts; no separate post-exhaustion
terminal log exists. -/
theorem c1_exhaustion_returns_normally (trace : Nat → Attempt)
    (h : ∀ j, j < 5 → nonTerminal (classify (trace j)) = true) :
    (runDiscordPost trace).outcome = .exhausted ∧
    (runDiscordPost trace).requests = 5 ∧
    (runDiscordPost trace).logs =
      (idxList 0 5).filterMap (fun j => attemptLog? (classify (trace j))) := by
  have h' : ∀ j, j < 5 → nonTerminal (classify (trace (0 + j))) = true := by
    intro j hj; rw [Nat.zero_add]; exact h j hj
  have e := da_exhaust trace 5 0 [] [] h'
  simp only [Nat.zero_add, List.reverse_nil, List.nil_append] at e
  refine ⟨?_, ?_, ?_⟩
  · show (discordAttempts trace 0 5 [] []).outcome = _
    rw [e]
  · show (discordAttempts trace 0 5 [] []).requests = _
    rw [e]
  · show (discordAttempts trace 0 5 [] []).logs = _
    rw [e]

/-- C1, witness: the all-500 trace satisfies the hypothesis and the amended
conclusion (5 failure-logged attempts, normal return). -/
theorem c1_witness :
    (∀ j, j < 5 → nonTerminal (classify (all500Trace j)) = true) ∧
    ((runDiscordPost all500Trace).outcome = .exhausted ∧
     (runDiscordPost all500Trace).requests = 5 ∧
     (runDiscordPost all500Trace).logs =
       (idxList 0 5).filterMap (fun j => attemptLog? (classify (all500Trace j)))) :=
  ⟨by decide, c1_exhaustion_returns_normally all500Trace (by decide)⟩

/-! ## Claim C2 -/

/-- C2, counterexample: on a 429 whose `Retry-After` value `"abc"` is
unparseable, the call does not default the wait to 1 — `float` raises
`ValueError`, the exception escapes the call (only
`requests.RequestException` is caught), and the request is never re-issued
even though the next response would have been a 2xx. -/
theorem c2_counterexample :
    runDiscordPost badHeaderTrace = ⟨.valueError, 1, [], []⟩ ∧
    (runDiscordPost badHeaderTrace).requests = 1 ∧
    (runDiscordPost badHeaderTrace).outcome ≠ .success := by decide

/-- C2 (amended): on an HTTP 429 response, the default wait of 1 second
applies only when the `Retry-After` header is absent; a present, parseable
value is slept and the request is re-issued (while attempt slots remain),
but a present, unparseable value makes `float` raise `ValueError`, which
propagates past the call boundary without any re-issue. -/
theorem c2_retry_after_handling (trace : Nat → Attempt) (ra : Option Str)
    (h : trace 0 = Attempt.resp 429 ra) :
    (ra = none →
        (runDiscordPost trace).sleeps.head? = some 1 ∧
        2 ≤ (runDiscordPost trace).requests) ∧
    (∀ s w, ra = some s → pyFloat? s = some w →
        (runDiscordPost trace).sleeps.head? = some w ∧
        2 ≤ (runDiscordPost trace).requests) ∧
    (∀ s, ra = some s → pyFloat? s = none →
        runDiscordPost trace = ⟨.valueError, 1, [], []⟩) := by
  refine ⟨?_, ?_, ?_⟩
  · rintro rfl
    have hc : classify (trace 0) = .retry429 1 := by rw [h]; decide
    rw [runDiscordPost_unfold, da_step_retry trace 0 4 [] [] 1 hc]
    constructor
    · obtain ⟨t, ht⟩ := da_sleeps_acc trace 4 1 [.rateLimit 1] [1]
      rw [ht]; simp
    · have := (da_requests_lower trace 4 (0 + 1) [.rateLimit 1] [1]).2 (by norm_num)
      omega
  · rintro s w rfl hw
    have hc : classify (trace 0) = .retry429 w := by
      rw [h]; simp [classify, respOk, hw]
    rw [runDiscordPost_unfold, da_step_retry trace 0 4 [] [] w hc]
    constructor
    · obtain ⟨t, ht⟩ := da_sleeps_acc trace 4 1 [.rateLimit w] [w]
      rw [ht]; simp
    · have := (da_requests_lower trace 4 (0 + 1) [.rateLimit w] [w]).2 (by norm_num)
      omega
  · rintro s rfl hw
    have hc : classify (trace 0) = .badRetryAfter := by
      rw [h]; simp [classify, respOk, hw]
    rw [runDiscordPost_unfold, da_step_bad trace 0 4 [] [] hc]
    simp

/-- C2, witness: the amended theorem applied to the unparseable-header trace. -/
theorem c2_witness :
    badHeaderTrace 0 = Attempt.resp 429 (some (S "abc")) ∧
    runDiscordPost badHeaderTrace = ⟨.valueError, 1, [], []⟩ :=
  ⟨rfl, (c2_retry_after_handling badHeaderTrace (some (S "abc")) rfl).2.2 (S "abc") rfl
    (by decide)⟩

/-! ## Claim C3 -/

/-- C3, counterexample: five consecutive 429 responses exhaust the retry
loop — each 429-driven re-issue consumes one of the 5 `range(5)` slots, so
the sequence of 429 responses is *not* exempt from the attempt budget as the
claim states. -/
theorem c3_counterexample :
    (runDiscordPost all429Trace).requests = 5 ∧
    (runDiscordPost all429Trace).outcome = .exhausted ∧
    (runDiscordPost all429Trace).sleeps = [1, 1, 1, 1, 1] := by decide

/-- C3 (amended): every call makes at most 5 requests in total, 429-driven
re-issues included (each 429 consumes one of the 5 slots); when all 5
iterations continue (no success, no `ValueError`), the recorded sleeps are
exactly the per-iteration ones — the parsed `Retry-After` after a 429
(which skips the backoff), and the linear backoff `1 + attemptIndex`
seconds after any other failed attempt. -/
theorem c3_attempt_budget (trace : Nat → Attempt) :
    (runDiscordPost trace).requests ≤ 5 ∧
    ((∀ j, j < 5 → nonTerminal (classify (trace j)) = true) →
      (runDiscordPost trace).sleeps =
        (idxList 0 5).filterMap (fun j => attemptSleep? j (classify (trace j)))) := by
  constructor
  · have := da_requests_le trace 5 0 [] []
    rw [Nat.zero_add] at this
    exact this
  · intro h
    have h' : ∀ j, j < 5 → nonTerminal (classify (trace (0 + j))) = true := by
      intro j hj; rw [Nat.zero_add]; exact h j hj
    have e := da_exhaust trace 5 0 [] [] h'
    simp only [Nat.zero_add, List.reverse_nil, List.nil_append] at e
    show (discordAttempts trace 0 5 [] []).sleeps = _
    rw [e]

/-- C3, witness: on the all-exception trace the budget is met and the sleeps
are the linear backoff `1, 2, 3, 4, 5`. -/
theorem c3_witness :
    (runDiscordPost allExnTrace).requests ≤ 5 ∧
    (runDiscordPost allExnTrace).sleeps = [1, 2, 3, 4, 5] := by
  refine ⟨(c3_attempt_budget allExnTrace).1, ?_⟩
  rw [(c3_attempt_budget allExnTrace).2 (by decide)]
  decide

/-! ## Claim C4 -/

/-- C4, counterexample: an attended `client.start()` call that takes 1000
seconds — far beyond the claimed T_start of about 120 seconds — and then
succeeds simply proceeds towards Running: no transition to a failed state,
no diagnostic delivery.  The attended branch wraps `client.start()` in no
timeout at all. -/
theorem c4_counterexample :
    mainAttended 1000 (some (.ok ())) = ⟨.proceeded, [], [], true⟩ ∧
    (mainAttended 1000 (some (.ok ()))).outcome ≠ .failedReturn ∧
    (mainAttended 1000 (some (.ok ()))).diagPosts.length = 0 := by decide

/-- C4 (amended): the attended branch issues the single combined
connect-and-authenticate call `client.start()` with no overall timeout
bound: its behaviour is independent of how long the call takes; when the
call raises, the error is logged and exactly one diagnostic delivery is
attempted before `main` returns; when the call never completes, `main`
hangs with no failure transition and no diagnostic delivery. -/
theorem c4_attended_no_timeout :
    (∀ (d₁ d₂ : ℚ) (r : Option (Except Str Unit)), mainAttended d₁ r = mainAttended d₂ r) ∧
    (∀ (d : ℚ) (e : Str),
        mainAttended d (some (.error e)) =
          ⟨.failedReturn, [attendedErrMsg e], [attendedErrMsg e], true⟩) ∧
    (∀ d : ℚ, mainAttended d none = ⟨.hung, [], [], true⟩) :=
  ⟨fun _ _ _ => rfl, fun _ _ => rfl, fun _ => rfl⟩

/-! ## Claim C5 -/

/-- C5 (confirmed): in headless mode, when connect completes within the
timeout, the transport check reports connected, and the authorization check
returns `False`, `main` logs exactly one lifecycle error, posts exactly one
diagnostic text (the same message), returns without proceeding to the
announcement/Running phase, and never prompts interactively. -/
theorem c5_headless_unauthorized :
    mainHeadless .completed (.ok true) (.ok false) =
      ⟨.failedReturn, [notAuthorizedMsg], [notAuthorizedMsg], false⟩ ∧
    (mainHeadless .completed (.ok true) (.ok false)).outcome ≠ .proceeded ∧
    (mainHeadless .completed (.ok true) (.ok false)).errorLogs.length = 1 ∧
    (mainHeadless .completed (.ok true) (.ok false)).diagPosts.length = 1 ∧
    (mainHeadless .completed (.ok true) (.ok false)).promptsUser = false := by decide

/-! ## Claim C6 -/

/-- C6, counterexample: `build_message` is not injective on untruncated
inputs — with an empty link and text `"x"` it produces the same caption as
with text empty and link `"x"` (both well under 2000 characters), so no
reconstruction function can recover title, text, and link from a
non-truncated composed caption. -/
theorem c6_roundtrip_counterexample :
    build_message [] (S "a") (S "x") [] = build_message [] (S "a") [] (S "x") ∧
    ((S "x", ([] : Str)) ≠ (([] : Str), S "x")) ∧
    (build_message [] (S "a") (S "x") []).length ≤ 2000 ∧
    ¬ ∃ recov : Str → Str × Str × Str,
        ∀ t x l, (build_message [] t x l).length ≤ 2000 →
          recov (build_message [] t x l) = (t, x, l) := by
  refine ⟨by decide, by decide, by decide, ?_⟩
  rintro ⟨recov, hrec⟩
  have h1 := hrec (S "a") (S "x") [] (by decide)
  have h2 := hrec (S "a") [] (S "x") (by decide)
  rw [show build_message [] (S "a") (S "x") [] = build_message [] (S "a") [] (S "x")
    from by decide] at h1
  have hAB := h1.symm.trans h2
  exact (by decide :
    ((S "a", S "x", ([] : Str)) : Str × Str × Str) ≠ (S "a", ([] : Str), S "x")) hAB

/-- C6 (amended): for every title, text and link, the content transmitted by
`post_text_to_discord` for the composed caption is at most 2000 characters
and never empty (an empty composed string would be replaced by the
placeholder `"."`); the round-trip conjunct of the claim does not hold (see
the counterexample). -/
theorem c6_truncation_and_placeholder (pfx title text link : Str)
    (trace : Nat → Attempt) :
    (post_text_to_discord (build_message pfx title text link) trace).1.length ≤ 2000 ∧
    (post_text_to_discord (build_message pfx title text link) trace).1 ≠ [] :=
  truncateContent_length (build_message pfx title text link)

/-! ## Claim C7 -/

/-- C7, counterexample: `parse_targets` performs no deduplication — the list
`"@a,@a"` resolves to the same target twice, so the resolved target set is
not deduplicated as the claim states. -/
theorem c7_dedup_counterexample :
    parse_targets [] (S "@a,@a") = [.str (S "@a"), .str (S "@a")] ∧
    ¬ (parse_targets [] (S "@a,@a")).Nodup := by
  exact ⟨by decide, by decide⟩

/-- C7 (amended): for every non-empty multi list, `parse_targets` is exactly
the in-order parse of the comma-separated entries with the dropped ones
removed (so input order is preserved and duplicates are kept, not
deduplicated); whitespace-only entries always parse to `none` and are
dropped; every produced target comes from some entry; and when the resolved
list is empty the module raises `SystemExit` (non-zero exit). -/
theorem c7_parse_targets (single multi : Str) (h : multi.isEmpty = false) :
    parse_targets single multi = (multi.splitOn ',').filterMap to_target ∧
    (∀ part, pyStrip part = [] → to_target part = none) ∧
    (∀ t, t ∈ parse_targets single multi →
        ∃ part, part ∈ multi.splitOn ',' ∧ to_target part = some t) ∧
    (parse_targets single multi = [] →
        targetsOrExit (parse_targets single multi) = .error noChannelsMsg) := by
  have h1 : parse_targets single multi = (multi.splitOn ',').filterMap to_target := by
    simp [parse_targets, h]
  refine ⟨h1, ?_, ?_, ?_⟩
  · intro part hp
    simp [to_target, hp, stripChar]
  · intro t ht
    rw [h1] at ht
    exact List.mem_filterMap.mp ht
  · intro hempty
    rw [hempty]
    simp [targetsOrExit]

/-- C7, witness: a mixed handle/id list with spaces satisfies the hypothesis
and the order-preserving filterMap characterization. -/
theorem c7_witness :
    (S "@a, -100, @a").isEmpty = false ∧
    parse_targets [] (S "@a, -100, @a") =
      ((S "@a, -100, @a").splitOn ',').filterMap to_target ∧
    parse_targets [] (S "@a, -100, @a") =
      [.str (S "@a"), .num (-100), .str (S "@a")] :=
  ⟨by decide, (c7_parse_targets [] (S "@a, -100, @a") (by decide)).1, by decide⟩

/-! ## Claim C8 -/

/-- C8 (confirmed): for every photo or image-document event, a fetched
attachment of any size up to `MAX_UPLOAD_BYTES` inclusive is delivered as a
file with the composed caption, and any size strictly above
`MAX_UPLOAD_BYTES` (in particular `MAX_UPLOAD_BYTES + 1`) is delivered as a
text-only post with the oversize notice appended to the caption. -/
theorem c8_size_boundary (cfg : Config) (ev : Inbound)
    (h : isImageKind ev.media = true) :
    (∀ size, size ≤ cfg.maxUploadBytes →
        ∃ ext, on_new_message cfg ev size = .file ext (composedMessage cfg ev)) ∧
    (∀ size, cfg.maxUploadBytes < size →
        on_new_message cfg ev size = .text (composedMessage cfg ev ++ tooLargeNotice)) := by
  cases hm : ev.media with
  | phNone => rw [hm] at h; simp [isImageKind, is_image_document] at h
  | photo =>
      constructor
      · intro size hs
        exact ⟨S ".jpg", by simp [on_new_message, hm, hs]⟩
      · intro size hs
        have h' : ¬ size ≤ cfg.maxUploadBytes := by omega
        simp [on_new_message, hm, h']
  | document mime =>
      have hd : is_image_document (.document mime) = true := by
        rw [hm] at h; simpa [isImageKind] using h
      constructor
      · intro size hs
        exact ⟨docExt mime, by simp [on_new_message, hm, hd, hs]⟩
      · intro size hs
        have h' : ¬ size ≤ cfg.maxUploadBytes := by omega
        simp [on_new_message, hm, hd, h']

/-- C8, witness: with an 8-byte ceiling, a photo of exactly 8 bytes is
uploaded as a file and one of 9 bytes falls back to the text-only notice. -/
theorem c8_witness :
    isImageKind (Inbound.mk [] .photo 1 none none).media = true ∧
    (∃ ext, on_new_message ⟨[], false, 8⟩ ⟨[], .photo, 1, none, none⟩ 8 =
        .file ext (composedMessage ⟨[], false, 8⟩ ⟨[], .photo, 1, none, none⟩)) ∧
    on_new_message ⟨[], false, 8⟩ ⟨[], .photo, 1, none, none⟩ 9 =
      .text (composedMessage ⟨[], false, 8⟩ ⟨[], .photo, 1, none, none⟩ ++ tooLargeNotice) :=
  ⟨by decide,
   (c8_size_boundary ⟨[], false, 8⟩ ⟨[], .photo, 1, none, none⟩ (by decide)).1 8 (by decide),
   (c8_size_boundary ⟨[], false, 8⟩ ⟨[], .photo, 1, none, none⟩ (by decide)).2 9 (by decide)⟩

/-! ## Claim C9 -/

/-- C9 (confirmed): every delivered attachment uses the extension
`extForMedia`: for an image document it is derived from the declared MIME
type (dot plus lowercased subtype) when that candidate is 1-6 characters
long, the generic `.img` when the candidate is not derivable, and photos
always use `.jpg`; the used extension always has 1 to 6 characters. -/
theorem c9_extension_derivation (cfg : Config) (ev : Inbound) (size : Nat)
    (h : isImageKind ev.media = true) (hsize : size ≤ cfg.maxUploadBytes) :
    on_new_message cfg ev size = .file (extForMedia ev.media) (composedMessage cfg ev) ∧
    1 ≤ (extForMedia ev.media).length ∧ (extForMedia ev.media).length ≤ 6 ∧
    (∀ mime, ev.media = .document mime → extDerivable mime = true →
        extForMedia ev.media = dotLowerLast mime) ∧
    (∀ mime, ev.media = .document mime → extDerivable mime = false →
        extForMedia ev.media = S ".img") ∧
    (ev.media = .photo → extForMedia ev.media = S ".jpg") := by
  cases hm : ev.media with
  | phNone => rw [hm] at h; simp [isImageKind, is_image_document] at h
  | photo =>
      refine ⟨by simp [on_new_message, hm, hsize, extForMedia], by decide, by decide,
        ?_, ?_, fun _ => by decide⟩
      · intro mime hd; exact absurd hd (by simp)
      · intro mime hd; exact absurd hd (by simp)
  | document mime0 =>
      have hd : is_image_document (.document mime0) = true := by
        rw [hm] at h; simpa [isImageKind] using h
      refine ⟨by simp [on_new_message, hm, hd, hsize, extForMedia],
        by simpa [extForMedia] using (docExt_length mime0).1,
        by simpa [extForMedia] using (docExt_length mime0).2, ?_, ?_, ?_⟩
      · intro mime hdm hder
        cases hdm
        simpa [extForMedia] using (extDerivable_spec mime0).1 hder
      · intro mime hdm hder
        cases hdm
        simpa [extForMedia] using (extDerivable_spec mime0).2 hder
      · intro hp; exact absurd hp (by simp)

/-- C9, witness: an image document declaring `image/png` within the size
ceiling is uploaded with the derived `.png` extension. -/
theorem c9_witness :
    isImageKind (MediaDesc.document (S "image/png")) = true ∧
    on_new_message ⟨[], false, 8⟩ ⟨[], .document (S "image/png"), 1, none, none⟩ 4 =
      .file (extForMedia (.document (S "image/png")))
        (composedMessage ⟨[], false, 8⟩ ⟨[], .document (S "image/png"), 1, none, none⟩) ∧
    extForMedia (MediaDesc.document (S "image/png")) = S ".png" :=
  ⟨by decide,
   (c9_extension_derivation ⟨[], false, 8⟩ ⟨[], .document (S "image/png"), 1, none, none⟩ 4
      (by decide) (by decide)).1,
   by decide⟩

/-! ## Claim C10 -/

/-- C10 (confirmed): when the stripped multi list `TG_CHANNELS` is non-empty,
the resolved targets do not depend on the single `TG_CHANNEL` value at all —
even when every entry of the multi list is dropped — and the single value
contributes only when the stripped multi list is empty. -/
theorem c10_single_ignored (s₁ s₂ multi : Str)
    (h : (pyStrip multi).isEmpty = false) :
    resolveTargets s₁ multi = resolveTargets s₂ multi ∧
    (∀ s m, (pyStrip m).isEmpty = true →
        resolveTargets s m = parse_targets (pyStrip s) []) := by
  constructor
  · simp [resolveTargets, parse_targets, h]
  · intro s m hm
    rw [resolveTargets, List.isEmpty_iff.mp hm]

/-- C10, witness: with multi list `",,"` (non-empty after stripping, but all
entries dropped) the single value `@x` or `@y` makes no difference and the
resolved set is empty. -/
theorem c10_witness :
    (pyStrip (S ",,")).isEmpty = false ∧
    resolveTargets (S "@x") (S ",,") = resolveTargets (S "@y") (S ",,") ∧
    resolveTargets (S "@x") (S ",,") = [] :=
  ⟨by decide, (c10_single_ignored (S "@x") (S "@y") (S ",,") (by decide)).1, by decide⟩
